import Mathlib

/-!
Verification development for the medical image analysis application
(`src/app.py`).  The code is shallowly embedded: external effects
(image decoding by PIL, file saving, the remote model call, file
deletion) are supplied by an oracle environment `Env`, the temp
directory and the `st.error` messages shown so far are an explicit
state `FS`, and machine arithmetic on image sizes is modelled with
exact integer arithmetic (Python's `int()` of a nonnegative quotient
is the floor).
-/

namespace MedApp

/-- A raster image as PIL exposes it: pixel dimensions and a color mode. -/
structure Img where
  width : Nat
  height : Nat
  mode : String
  deriving DecidableEq, Repr

/-- State threaded through a request: the file names currently present in
`Config.TEMP_DIR` and the diagnostics shown so far via `st.error`. -/
structure FS where
  files : List String
  errors : List String
  deriving DecidableEq, Repr

/-- Oracle for the external effects of one request:
`decode` is the outcome of `Image.open` (`.error e` means the exception `e`
was raised, e.g. an undecodable buffer); `saveOk`/`saveErr` describe
`img.save`; `agent` is the outcome of `self.agent.run` (content string or
raised exception message); `timestamp`/`analysisTime` are the clock values
read on the success path. -/
structure Env where
  decode : Except String Img
  saveOk : Bool
  saveErr : String
  agent : Except String String
  timestamp : String
  analysisTime : Nat

/-- The single fixed transient file name used by `preprocess_image`
(`Config.TEMP_DIR / "processed_image.png"`). -/
def tempName : String := "processed_image.png"

/-- Appends one `st.error` diagnostic to the state. -/
def pushError (fs : FS) (e : String) : FS :=
  ⟨fs.files, fs.errors ++ [e]⟩

/-- `Config.clean_temp_files` (src/app.py lines 52-59): for every file in
`TEMP_DIR`, attempt `file.unlink()`; a failing unlink is caught (the file
then remains) and only printed, never raised.  `unlinkOk f` is the oracle
for whether deleting `f` succeeds. -/
def clean_temp_files (unlinkOk : String → Bool) (fs : FS) : FS :=
  ⟨fs.files.filter (fun f => !unlinkOk f), fs.errors⟩

/-- `MedicalImageAnalyzer.preprocess_image` (src/app.py lines 112-140).
The whole body is inside `try`; any raised exception is caught,
reported via `st.error ("Image preprocessing failed: " ++ e)`, and the
function returns `None` (modelled `none`).  Faithful points:
* `aspect_ratio = width / height` raises `ZeroDivisionError` when
  `height = 0`; `800 / aspect_ratio` raises when the ratio is `0.0`
  (i.e. `width = 0`);
* modes other than `"RGB"`/`"L"` are converted to `"RGB"`;
* `new_height = int(new_width / aspect_ratio)` truncates: with exact
  arithmetic this is `⌊800 * height / width⌋`, i.e. Nat division;
* `img.resize((800, 0))` raises (Pillow rejects zero dimensions), so a
  zero computed height lands in the `except` branch;
* `img.save` writes the single file `tempName` when it succeeds. -/
def preprocess_image (env : Env) (fs : FS) : Option Img × FS :=
  match env.decode with
  | Except.error e => (none, pushError fs ("Image preprocessing failed: " ++ e))
  | Except.ok img =>
    if img.height = 0 then
      (none, pushError fs "Image preprocessing failed: division by zero")
    else if img.width = 0 then
      (none, pushError fs "Image preprocessing failed: float division by zero")
    else
      let mode2 := if img.mode = "RGB" || img.mode = "L" then img.mode else "RGB"
      let newH := 800 * img.height / img.width
      if newH = 0 then
        (none, pushError fs "Image preprocessing failed: height and width must be > 0")
      else if env.saveOk then
        (some ⟨800, newH, mode2⟩, ⟨tempName :: fs.files, fs.errors⟩)
      else
        (none, pushError fs ("Image preprocessing failed: " ++ env.saveErr))

/-- The Python values `MedicalImageAnalyzer.analyze` can return: a plain
string on every failure path, or a dict on success.  A dict is a list of
key/value pairs, so the caller's `"content" in result` check is expressible. -/
inductive PyVal where
  | str : String → PyVal
  | num : Nat → PyVal
  | dict : List (String × PyVal) → PyVal

/-- `result[k]` lookup on a dict; `none` for non-dicts or missing keys. -/
def dictLookup : PyVal → String → Option PyVal
  | PyVal.dict kvs, k => (kvs.find? (fun kv => kv.1 == k)).map (fun kv => kv.2)
  | _, _ => none

/-- The caller's success test in `main` (src/app.py line 424):
`isinstance(result, dict) and "content" in result`. -/
def isSuccessResult : PyVal → Bool
  | PyVal.dict kvs => kvs.any (fun kv => kv.1 == "content")
  | _ => false

/-- `MedicalImageAnalyzer.analyze` (src/app.py lines 142-175).
`ready` is `self.ready`.  The early `not self.ready` return happens before
the `try`, so no cleanup runs there.  Inside the `try`: preprocessing
failure returns the fixed string; an exception from the external call is
caught into the `"⚠️ Analysis failed: ..."` string; success builds the
result dict.  The `finally` block runs `Config.clean_temp_files` on every
one of those paths. -/
def analyze (ready : Bool) (env : Env) (unlinkOk : String → Bool) (fs : FS) :
    PyVal × FS :=
  if ready = false then (PyVal.str "Analyzer not properly initialized.", fs)
  else
    let p := preprocess_image env fs
    match p.1 with
    | none => (PyVal.str "Image preprocessing failed.", clean_temp_files unlinkOk p.2)
    | some _ =>
      match env.agent with
      | Except.error e =>
          (PyVal.str ("⚠️ Analysis failed: " ++ e), clean_temp_files unlinkOk p.2)
      | Except.ok content =>
          (PyVal.dict [("content", PyVal.str content),
                       ("timestamp", PyVal.str env.timestamp),
                       ("analysis_time", PyVal.num env.analysisTime)],
           clean_temp_files unlinkOk p.2)

/-- `Config.initialize`'s credential check (src/app.py lines 41-50):
true when the environment variable is a non-empty string, else true when
the interactively entered key is non-empty, else false.  (`""` models both
an absent variable and an empty text input: Python's `if not api_key`.) -/
def initConfig (envKey entered : String) : Bool :=
  if envKey ≠ "" then true
  else if entered ≠ "" then true
  else false

/-- Outcome of the startup portion of `main`: either `st.stop()` was hit
with the shown message, or the app proceeds and can serve a request. -/
inductive MainOutcome where
  | halted : String → MainOutcome
  | served : PyVal → MainOutcome

/-- The startup sequence of `main` (src/app.py lines 367-381) followed by
one analysis request: a missing credential halts at line 374-375, a failed
analyzer constructor halts at line 380-381, otherwise `analyzer.analyze`
runs on the request described by `env`. -/
def mainStartup (envKey entered : String) (analyzerReady : Bool) (env : Env)
    (unlinkOk : String → Bool) (fs : FS) : MainOutcome :=
  if initConfig envKey entered = false then
    MainOutcome.halted "Please set up your API key to continue."
  else if analyzerReady = false then
    MainOutcome.halted "Failed to initialize the analysis system."
  else
    MainOutcome.served (analyze true env unlinkOk fs).1

/-! ### Summary extractor (spec §4.3)

The Summary Extractor is described by the spec but is not present in
`src/app.py` (only its consumer, the presentation layer, is); it is
modelled here from the spec's words. -/

/-- Lowercases an ASCII letter, leaves other characters unchanged. -/
def lowerChar (c : Char) : Char :=
  if 'A' ≤ c && c ≤ 'Z' then Char.ofNat (c.toNat + 32) else c

/-- Lowercase a whole character list. -/
def lowerList (cs : List Char) : List Char := cs.map lowerChar

/-- Whitespace for trimming. -/
def isWS (c : Char) : Bool := c = ' ' || c = '\t' || c = '\r' || c = '\n'

/-- Trim whitespace from both ends of a character list. -/
def trimChars (cs : List Char) : List Char :=
  ((cs.dropWhile isWS).reverse.dropWhile isWS).reverse

/-- Does `hay` contain `needle` as a contiguous sublist? -/
def containsSub (needle : List Char) : List Char → Bool
  | [] => needle.isEmpty
  | c :: cs => needle.isPrefixOf (c :: cs) || containsSub needle cs

/-- Split a character list into lines at `'\n'`. -/
def splitLines : List Char → List (List Char)
  | [] => [[]]
  | c :: cs =>
    if c = '\n' then [] :: splitLines cs
    else
      match splitLines cs with
      | [] => [[c]]
      | l :: ls => (c :: l) :: ls

/-- The fixed placeholder returned when no primary diagnosis is found
(spec §4.3 fallback policy). -/
def fallbackSummary : String := "No clear primary diagnosis found – needs manual review."

/-- The heading token marking the start of the Diagnostic Assessment
section, lowercased for the case-insensitive search. -/
def headingChars : List Char := "diagnostic assessment".data

/-- The case-insensitive label that a diagnosis line begins with. -/
def labelChars : List Char := "primary diagnosis:".data

/-- Does this line (trimmed, lowercased) begin with the diagnosis label? -/
def isLabelLine (l : List Char) : Bool :=
  labelChars.isPrefixOf (lowerList (trimChars l))

/-- The report split into lines. -/
def reportLines (s : String) : List (List Char) := splitLines s.data

/-- Modelled from the spec: locate the line containing the "Diagnostic
Assessment" heading token (case-insensitive); the section searched is the
text from that line on, or the entire text when the heading is absent
(spec §4.3 "if absent, operate over the entire text"). -/
def sectionLines (s : String) : List (List Char) :=
  match (reportLines s).findIdx? (fun l => containsSub headingChars (lowerList l)) with
  | some i => (reportLines s).drop i
  | none => reportLines s

/-- Modelled from the spec: the Summary Extractor of §4.3, absent from
`src/app.py`.  Within the Diagnostic Assessment section it searches
line-by-line for a line beginning with the case-insensitive
"Primary Diagnosis:" label; on a hit it returns the trailing text of that
line, trimmed of whitespace (line splitting already truncates at the first
line break); otherwise it returns the fixed placeholder.  It is a total
pure function: every input yields a string, never a raised fault. -/
def extractSummary (s : String) : String :=
  match (sectionLines s).find? isLabelLine with
  | some l => ⟨trimChars ((trimChars l).drop labelChars.length)⟩
  | none => fallbackSummary

/-- The `"⚠️"` warning marker occurs in `s` (used to state the
report-shaped error contract of `analyze`). -/
def containsWarningMarker (s : String) : Bool :=
  containsSub "⚠️".data s.data

/-! ### Environments used by the concrete witnesses -/

/-- A request on which everything succeeds: a decodable 640×480 RGB image,
a writable temp path, a responding model. -/
def wEnv : Env :=
  ⟨Except.ok ⟨640, 480, "RGB"⟩, true, "", Except.ok "report text",
   "2026-10-12T10:00:00", 3⟩

/-- A request whose external analysis call raises. -/
def wEnvFault : Env :=
  ⟨Except.ok ⟨800, 600, "RGB"⟩, true, "", Except.error "quota exceeded", "", 0⟩

/-- A request whose input bytes are not a decodable image. -/
def wEnvBad : Env :=
  ⟨Except.error "cannot identify image file", true, "", Except.ok "r", "", 0⟩

/-- A request with a degenerate 100000×1 (very wide) decodable image. -/
def wEnvWide : Env :=
  ⟨Except.ok ⟨100000, 1, "L"⟩, true, "", Except.ok "r", "", 0⟩

/-- An empty temp directory with no diagnostics shown yet. -/
def emptyFS : FS := ⟨[], []⟩

/-! ### Helper lemmas -/

/-- Nat division of `a` by `b` is the integer floor of the exact rational
quotient (for `b = 0` both sides are `0`). -/
theorem natDiv_cast_floor (a b : ℕ) :
    ((a / b : ℕ) : ℤ) = ⌊(a : ℚ) / (b : ℚ)⌋ := by
  rw [← Nat.floor_div_eq_div (α := ℚ) a b]
  exact Int.natCast_floor_eq_floor
    (div_nonneg (Nat.cast_nonneg a) (Nat.cast_nonneg b))

/-- Truncation differs from rounding by at most one. -/
theorem floor_round_dist (x : ℚ) : |⌊x⌋ - round x| ≤ 1 := by
  rw [round_eq, abs_le]
  have h1 : ⌊x⌋ ≤ ⌊x + 1 / 2⌋ := Int.floor_le_floor (by linarith)
  have h2 : ⌊x + 1 / 2⌋ ≤ ⌊x + ((1 : ℤ) : ℚ)⌋ :=
    Int.floor_le_floor (by push_cast; linarith)
  rw [Int.floor_add_int] at h2
  exact ⟨by linarith, by linarith⟩

/-- A list contains any list it starts with. -/
theorem containsSub_append_self (p rest : List Char) :
    containsSub p (p ++ rest) = true := by
  cases p with
  | nil =>
    cases rest with
    | nil => rfl
    | cons c cs => simp [containsSub, List.isPrefixOf]
  | cons c cs =>
    have h : (c :: cs).isPrefixOf (c :: (cs ++ rest)) = true :=
      List.isPrefixOf_iff_prefix.mpr (List.prefix_append _ _)
    simp [containsSub, h]

/-- Every string the `except` branch of `analyze` builds carries the
warning marker. -/
theorem warning_marker_of_fail (e : String) :
    containsWarningMarker ("⚠️ Analysis failed: " ++ e) = true := by
  have h1 : "⚠️ Analysis failed: ".data
      = "⚠️".data ++ " Analysis failed: ".data := by decide
  unfold containsWarningMarker
  rw [String.data_append, h1, List.append_assoc]
  exact containsSub_append_self _ _

/-! ### Claim theorems -/

/-- Claim C1: for every analysis request, the transient normalized-image
file (`temp/processed_image.png`) does not exist after
`MedicalImageAnalyzer.analyze` returns, on every exit path — external call
success, external call raising, or preprocessing failure — provided its
deletion succeeds; and a failing deletion is caught and ignored: it never
changes the value `analyze` returns (nothing is raised). -/
theorem analyze_cleanup_invariant (ready : Bool) (env : Env)
    (u u' : String → Bool) (fs : FS)
    (hfs : tempName ∉ fs.files) (hok : u tempName = true) :
    tempName ∉ (analyze ready env u fs).2.files ∧
    (analyze ready env u' fs).1 = (analyze ready env u fs).1 := by
  cases ready with
  | false => exact ⟨by simpa [analyze] using hfs, by simp [analyze]⟩
  | true =>
    constructor
    · rcases hp : (preprocess_image env fs).1 with _ | pimg
      · simp [analyze, hp, clean_temp_files, List.mem_filter, hok]
      · rcases hag : env.agent with e | c <;>
          simp [analyze, hp, hag, clean_temp_files, List.mem_filter, hok]
    · rcases hp : (preprocess_image env fs).1 with _ | pimg
      · simp [analyze, hp]
      · rcases hag : env.agent with e | c <;> simp [analyze, hp, hag]

/-- Witness for C1 at a concrete successful request with an empty temp
directory and a succeeding (resp. failing) unlink oracle. -/
theorem analyze_cleanup_invariant_witness :
    tempName ∉ emptyFS.files ∧ (fun _ : String => true) tempName = true ∧
    (tempName ∉ (analyze true wEnv (fun _ => true) emptyFS).2.files ∧
     (analyze true wEnv (fun _ => false) emptyFS).1 =
       (analyze true wEnv (fun _ => true) emptyFS).1) :=
  ⟨by decide, rfl,
   analyze_cleanup_invariant true wEnv (fun _ => true) (fun _ => false) emptyFS
     (by decide) rfl⟩

/-- Claim C2: when the external analysis call raises any exception, the
exception does not propagate out of `analyze`; the result is a string
containing the `"⚠️"` warning marker, for every fault `e`. -/
theorem analyze_fault_returns_warning (env : Env) (u : String → Bool)
    (fs : FS) (e : String) (pimg : Img)
    (hag : env.agent = Except.error e)
    (hp : (preprocess_image env fs).1 = some pimg) :
    ∃ msg, (analyze true env u fs).1 = PyVal.str msg ∧
      containsWarningMarker msg = true := by
  refine ⟨"⚠️ Analysis failed: " ++ e, ?_, warning_marker_of_fail e⟩
  simp [analyze, hp, hag]

/-- Witness for C2 at a concrete quota fault. -/
theorem analyze_fault_returns_warning_witness :
    wEnvFault.agent = Except.error "quota exceeded" ∧
    (preprocess_image wEnvFault emptyFS).1 = some ⟨800, 600, "RGB"⟩ ∧
    ∃ msg, (analyze true wEnvFault (fun _ => true) emptyFS).1 = PyVal.str msg ∧
      containsWarningMarker msg = true :=
  ⟨rfl, by decide,
   analyze_fault_returns_warning wEnvFault (fun _ => true) emptyFS
     "quota exceeded" ⟨800, 600, "RGB"⟩ rfl (by decide)⟩

/-- Claim C3: whenever `preprocess_image` produces a normalized image from
a decoded source, the output width is the configured constant 800 and the
output height is within one pixel of `round(800 / (width / height))`, so
the aspect ratio is preserved within rounding. -/
theorem preprocess_dimensions (env : Env) (fs : FS) (img out : Img)
    (hdec : env.decode = Except.ok img)
    (hout : (preprocess_image env fs).1 = some out) :
    out.width = 800 ∧
    |(out.height : ℤ) - round ((800 * img.height : ℚ) / (img.width : ℚ))| ≤ 1 := by
  unfold preprocess_image at hout
  rw [hdec] at hout
  by_cases h0 : img.height = 0
  · simp [h0] at hout
  · by_cases h1 : img.width = 0
    · simp [h0, h1] at hout
    · by_cases h2 : 800 * img.height / img.width = 0
      · simp [h0, h1, h2] at hout
      · by_cases h3 : env.saveOk
        · simp [h0, h1, h2, h3] at hout
          subst hout
          refine ⟨rfl, ?_⟩
          have hx : ((800 * img.height / img.width : ℕ) : ℤ)
              = ⌊(800 * img.height : ℚ) / (img.width : ℚ)⌋ := by
            rw [natDiv_cast_floor]
            congr 1
            push_cast
            ring
          show |((800 * img.height / img.width : ℕ) : ℤ)
              - round ((800 * img.height : ℚ) / (img.width : ℚ))| ≤ 1
          rw [hx]
          exact floor_round_dist _
        · simp [h0, h1, h2, h3] at hout

/-- Witness for C3 at the concrete 640×480 request:
the output is 800×600 and `round(800·480/640) = 600`. -/
theorem preprocess_dimensions_witness :
    wEnv.decode = Except.ok ⟨640, 480, "RGB"⟩ ∧
    (preprocess_image wEnv emptyFS).1 = some ⟨800, 600, "RGB"⟩ ∧
    ((⟨800, 600, "RGB"⟩ : Img).width = 800 ∧
     |((⟨800, 600, "RGB"⟩ : Img).height : ℤ)
       - round ((800 * (⟨640, 480, "RGB"⟩ : Img).height : ℚ)
           / ((⟨640, 480, "RGB"⟩ : Img).width : ℚ))| ≤ 1) :=
  ⟨rfl, by decide,
   preprocess_dimensions wEnv emptyFS ⟨640, 480, "RGB"⟩ ⟨800, 600, "RGB"⟩
     rfl (by decide)⟩

/-- Claim C4: on a report containing `### 3. Diagnostic Assessment`
followed by a `Primary Diagnosis: Pneumonia` line, the Summary Extractor
returns exactly `"Pneumonia"`. -/
theorem extract_primary_diagnosis_example :
    extractSummary "### 3. Diagnostic Assessment\nPrimary Diagnosis: Pneumonia\n..."
      = "Pneumonia" := by decide

/-- Claim C5: the Summary Extractor is a total function (it is a plain
Lean `def`, so it terminates without raising on every string), and on any
input with no "Primary Diagnosis:" label line — in particular malformed
input or input without the Diagnostic Assessment heading — it returns the
fixed placeholder string. -/
theorem extract_no_label_fallback (s : String)
    (h : ∀ l ∈ reportLines s, isLabelLine l = false) :
    extractSummary s = fallbackSummary := by
  unfold extractSummary
  have hfind : (sectionLines s).find? isLabelLine = none := by
    rw [List.find?_eq_none]
    intro l hl
    have hl' : l ∈ reportLines s := by
      unfold sectionLines at hl
      rcases hidx : (reportLines s).findIdx?
          (fun l => containsSub headingChars (lowerList l)) with _ | i
      · rw [hidx] at hl
        exact hl
      · rw [hidx] at hl
        exact List.mem_of_mem_drop hl
    simp [h l hl']
  rw [hfind]

/-- Witness for C5 at a concrete report with no Diagnostic Assessment
heading and no diagnosis label. -/
theorem extract_no_label_fallback_witness :
    (∀ l ∈ reportLines "### 2. Key Findings\nNothing notable.",
      isLabelLine l = false) ∧
    extractSummary "### 2. Key Findings\nNothing notable." = fallbackSummary :=
  ⟨by decide, extract_no_label_fallback _ (by decide)⟩

/-- Claim C6: when the external analysis call succeeds with `content`,
the `"content"` entry of the dict `analyze` returns is that string
verbatim, unmodified. -/
theorem analyze_success_content_verbatim (env : Env) (u : String → Bool)
    (fs : FS) (content : String) (pimg : Img)
    (hag : env.agent = Except.ok content)
    (hp : (preprocess_image env fs).1 = some pimg) :
    dictLookup (analyze true env u fs).1 "content" = some (PyVal.str content) := by
  have h1 : (analyze true env u fs).1 =
      PyVal.dict [("content", PyVal.str content),
                  ("timestamp", PyVal.str env.timestamp),
                  ("analysis_time", PyVal.num env.analysisTime)] := by
    simp [analyze, hp, hag]
  rw [h1]
  rfl

/-- Witness for C6 at the concrete successful request. -/
theorem analyze_success_content_verbatim_witness :
    wEnv.agent = Except.ok "report text" ∧
    (preprocess_image wEnv emptyFS).1 = some ⟨800, 600, "RGB"⟩ ∧
    dictLookup (analyze true wEnv (fun _ => true) emptyFS).1 "content"
      = some (PyVal.str "report text") :=
  ⟨rfl, by decide,
   analyze_success_content_verbatim wEnv (fun _ => true) emptyFS
     "report text" ⟨800, 600, "RGB"⟩ rfl (by decide)⟩

/-- Claim C7: on an undecodable input the Preparer returns no normalized
image and reports the decode failure as a human-readable `st.error`
diagnostic; the enclosing `analyze` request returns the fixed
preprocessing-failure string and leaves no transient normalized-image
file behind. -/
theorem analyze_decode_failure (env : Env) (u : String → Bool) (fs : FS)
    (e : String) (hdec : env.decode = Except.error e)
    (hfs : tempName ∉ fs.files) :
    (preprocess_image env fs).1 = none ∧
    (preprocess_image env fs).2.errors
      = fs.errors ++ ["Image preprocessing failed: " ++ e] ∧
    (analyze true env u fs).1 = PyVal.str "Image preprocessing failed." ∧
    tempName ∉ (analyze true env u fs).2.files := by
  have hp : preprocess_image env fs
      = (none, pushError fs ("Image preprocessing failed: " ++ e)) := by
    simp [preprocess_image, hdec]
  refine ⟨by rw [hp], by rw [hp]; rfl, by simp [analyze, hp], ?_⟩
  have h2 : (analyze true env u fs).2
      = clean_temp_files u (pushError fs ("Image preprocessing failed: " ++ e)) := by
    simp [analyze, hp]
  rw [h2]
  simp [clean_temp_files, List.mem_filter, pushError]
  exact fun hc => absurd hc hfs

/-- Witness for C7 at a concrete undecodable buffer. -/
theorem analyze_decode_failure_witness :
    wEnvBad.decode = Except.error "cannot identify image file" ∧
    tempName ∉ emptyFS.files ∧
    ((preprocess_image wEnvBad emptyFS).1 = none ∧
     (preprocess_image wEnvBad emptyFS).2.errors
       = emptyFS.errors ++ ["Image preprocessing failed: cannot identify image file"] ∧
     (analyze true wEnvBad (fun _ => true) emptyFS).1
       = PyVal.str "Image preprocessing failed." ∧
     tempName ∉ (analyze true wEnvBad (fun _ => true) emptyFS).2.files) := by
  refine ⟨rfl, by decide, ?_⟩
  have h := analyze_decode_failure wEnvBad (fun _ => true) emptyFS
    "cannot identify image file" rfl (by decide)
  simpa using h

/-- Claim C8: when the credential is absent both from the environment and
from the interactive prompt, `Config.initialize` reports failure and
`main` halts at `st.stop()` before any analysis request is served. -/
theorem missing_key_halts (envKey entered : String) (r : Bool) (env : Env)
    (u : String → Bool) (fs : FS) (h1 : envKey = "") (h2 : entered = "") :
    initConfig envKey entered = false ∧
    mainStartup envKey entered r env u fs
      = MainOutcome.halted "Please set up your API key to continue." := by
  subst h1
  subst h2
  exact ⟨by decide, by simp [mainStartup, initConfig]⟩

/-- Witness for C8 with both credential sources empty. -/
theorem missing_key_halts_witness :
    ("" : String) = "" ∧
    (initConfig "" "" = false ∧
     mainStartup "" "" true wEnv (fun _ => true) emptyFS
       = MainOutcome.halted "Please set up your API key to continue.") :=
  ⟨rfl, missing_key_halts "" "" true wEnv (fun _ => true) emptyFS rfl rfl⟩

/-- Claim C9: the value `analyze` returns is not of one uniform type:
it is either a dict with exactly the keys `content`, `timestamp`,
`analysis_time` (and then the caller's `isinstance(result, dict) and
"content" in result` test accepts it), or a plain string (and the test
rejects it); the test accepts exactly when the analyzer was ready,
preprocessing produced an image, and the external call succeeded. -/
theorem analyze_result_shape (ready : Bool) (env : Env) (u : String → Bool)
    (fs : FS) :
    ((isSuccessResult (analyze ready env u fs).1 = true ∧
      ∃ c, (analyze ready env u fs).1 =
        PyVal.dict [("content", PyVal.str c),
                    ("timestamp", PyVal.str env.timestamp),
                    ("analysis_time", PyVal.num env.analysisTime)]) ∨
     (isSuccessResult (analyze ready env u fs).1 = false ∧
      ∃ s, (analyze ready env u fs).1 = PyVal.str s)) ∧
    (isSuccessResult (analyze ready env u fs).1 = true ↔
      ready = true ∧ (preprocess_image env fs).1.isSome = true ∧
        env.agent.isOk = true) := by
  cases ready with
  | false =>
    refine ⟨Or.inr ⟨by simp [analyze, isSuccessResult], ?_⟩, ?_⟩
    · exact ⟨"Analyzer not properly initialized.", by simp [analyze]⟩
    · simp [analyze, isSuccessResult]
  | true =>
    rcases hp : (preprocess_image env fs).1 with _ | pimg
    · refine ⟨Or.inr ⟨by simp [analyze, hp, isSuccessResult], ?_⟩, ?_⟩
      · exact ⟨"Image preprocessing failed.", by simp [analyze, hp]⟩
      · simp [analyze, hp, isSuccessResult]
    · rcases hag : env.agent with e | c
      · refine ⟨Or.inr ⟨by simp [analyze, hp, hag, isSuccessResult], ?_⟩, ?_⟩
        · exact ⟨"⚠️ Analysis failed: " ++ e, by simp [analyze, hp, hag]⟩
        · simp [analyze, hp, hag, isSuccessResult, Except.isOk, Except.toBool]
      · refine ⟨Or.inl ⟨by simp [analyze, hp, hag, isSuccessResult], ?_⟩, ?_⟩
        · exact ⟨c, by simp [analyze, hp, hag]⟩
        · simp [analyze, hp, hag, isSuccessResult, Except.isOk, Except.toBool]

/-- Claim C10: a decodable source more than 800 times as wide as it is
tall makes the truncated height `int(800 / aspect_ratio)` equal to 0, so
`preprocess_image` produces no normalized image (Pillow rejects a zero
resize dimension, landing in the `except` branch) and `analyze` reports
preprocessing failure. -/
theorem extreme_aspect_no_output (env : Env) (u : String → Bool) (fs : FS)
    (img : Img) (hdec : env.decode = Except.ok img) (hh : 0 < img.height)
    (hw : 800 * img.height < img.width) :
    800 * img.height / img.width = 0 ∧
    (preprocess_image env fs).1 = none ∧
    (analyze true env u fs).1 = PyVal.str "Image preprocessing failed." := by
  have h0 : 800 * img.height / img.width = 0 := Nat.div_eq_of_lt hw
  have hh0 : img.height ≠ 0 := by omega
  have hw0 : img.width ≠ 0 := by omega
  have hp : (preprocess_image env fs).1 = none := by
    simp [preprocess_image, hdec, hh0, hw0, h0]
  exact ⟨h0, hp, by simp [analyze, hp]⟩

/-- Witness for C10 at a concrete 100000×1 image. -/
theorem extreme_aspect_no_output_witness :
    wEnvWide.decode = Except.ok ⟨100000, 1, "L"⟩ ∧
    0 < (⟨100000, 1, "L"⟩ : Img).height ∧
    800 * (⟨100000, 1, "L"⟩ : Img).height < (⟨100000, 1, "L"⟩ : Img).width ∧
    (800 * (⟨100000, 1, "L"⟩ : Img).height / (⟨100000, 1, "L"⟩ : Img).width = 0 ∧
     (preprocess_image wEnvWide emptyFS).1 = none ∧
     (analyze true wEnvWide (fun _ => true) emptyFS).1
       = PyVal.str "Image preprocessing failed.") :=
  ⟨rfl, by decide, by decide,
   extreme_aspect_no_output wEnvWide (fun _ => true) emptyFS ⟨100000, 1, "L"⟩
     rfl (by decide) (by decide)⟩

end MedApp
